import Mathlib

/-!
Verification of the kubectl-smart analysis engine against its specification.

This file gives a shallow embedding, in Lean 4, of the parts of the
kubectl-smart source (a Kubernetes diagnostic CLI plugin written in Python)
that the checked claims are about:

* the resource data model (`models.py`): `ResourceKind`, `ResourceRecord`,
  `Issue`, `IssueSeverity`, and the dotted-path accessor `get_property`;
* the parsers (`parsers/base.py`): `KubernetesResourceParser.feed`,
  `LogParser.feed`;
* the scoring engine (`scoring/engine.py`): `score_issue`,
  `_get_age_multiplier`, `create_issue_from_event`,
  `create_issue_from_resource_status`, `analyze_issues` and its final sort;
* the diag command's exit-code logic (`cli/commands.py`);
* the forecaster (`forecast/predictor.py`): storage/metric value parsing,
  the linear forecast, node and PVC capacity prediction, the certificate
  expiry check, and the PVC sample cache;
* the ASCII dependency-tree renderer (`graph/builder.py`).

Python dictionaries are embedded as association lists, JSON values as the
inductive `JValue`, machine floats as rationals (every numeric literal the
claims exercise is exactly representable), timestamps as rational numbers
of hours since an arbitrary epoch, and raised exceptions as `Except` /
`Option` values.  Where a Python function secretly reads the wall clock
(`datetime.now`), the embedding makes that read an explicit `now` argument,
so that claims about clock (in)dependence become statable.
-/

namespace KubectlSmart

/-- JSON-like value tree, embedding the Python objects produced by
`json.loads` and stored in `ResourceRecord.properties` (`models.py`).
Python floats/ints are both embedded as `ℚ`; dicts as association lists in
insertion order. -/
inductive JValue where
  | null : JValue
  | bool (b : Bool) : JValue
  | num (q : ℚ) : JValue
  | str (s : String) : JValue
  | arr (xs : List JValue) : JValue
  | obj (kvs : List (String × JValue)) : JValue

/-- Python dict lookup `d[k]` on an embedded object: first binding wins
(later duplicate keys never arise from `json.loads`, which keeps the last;
our embedding stores post-parse dicts, so keys are unique). -/
def objLookup (kvs : List (String × JValue)) (k : String) : Option JValue :=
  match kvs with
  | [] => none
  | (k', v) :: rest => if k' = k then some v else objLookup rest k

/-- Python `d.get(k, default)` on an embedded object. -/
def objGetD (kvs : List (String × JValue)) (k : String) (d : JValue) : JValue :=
  (objLookup kvs k).getD d

/-- Python truthiness of an embedded JSON value (`bool(x)`): `None`,
`False`, `0`, `""`, `[]` and `{}` are falsy, everything else truthy. -/
def jTruthy : JValue → Bool
  | .null => false
  | .bool b => b
  | .num q => q ≠ 0
  | .str s => s ≠ ""
  | .arr xs => ¬ xs.isEmpty
  | .obj kvs => ¬ kvs.isEmpty

/-- Closed enumeration of Kubernetes kinds, from `models.py` lines 18-46.
The members are exactly the ones the Python `ResourceKind(str, Enum)`
declares; in particular there is no `LOGANALYSIS` member, even though
`parsers/base.py` line 368 and `scoring/engine.py` line 393 refer to one. -/
inductive ResourceKind where
  | pod | deployment | replicaset | statefulset | daemonset | job | cronjob
  | service | ingress | configmap | secret | pvc | pv | storageclass
  | node | namespc | serviceaccount | role | rolebinding | clusterrole
  | clusterrolebinding | networkpolicy | hpa | vpa | endpoints | event
deriving DecidableEq, Repr

/-- String value of each `ResourceKind` member (`models.py`). -/
def kindValue : ResourceKind → String
  | .pod => "Pod"
  | .deployment => "Deployment"
  | .replicaset => "ReplicaSet"
  | .statefulset => "StatefulSet"
  | .daemonset => "DaemonSet"
  | .job => "Job"
  | .cronjob => "CronJob"
  | .service => "Service"
  | .ingress => "Ingress"
  | .configmap => "ConfigMap"
  | .secret => "Secret"
  | .pvc => "PersistentVolumeClaim"
  | .pv => "PersistentVolume"
  | .storageclass => "StorageClass"
  | .node => "Node"
  | .namespc => "Namespace"
  | .serviceaccount => "ServiceAccount"
  | .role => "Role"
  | .rolebinding => "RoleBinding"
  | .clusterrole => "ClusterRole"
  | .clusterrolebinding => "ClusterRoleBinding"
  | .networkpolicy => "NetworkPolicy"
  | .hpa => "HorizontalPodAutoscaler"
  | .vpa => "VerticalPodAutoscaler"
  | .endpoints => "Endpoints"
  | .event => "Event"

/-- List of all `ResourceKind` members, in declaration order. -/
def allKinds : List ResourceKind :=
  [.pod, .deployment, .replicaset, .statefulset, .daemonset, .job, .cronjob,
   .service, .ingress, .configmap, .secret, .pvc, .pv, .storageclass,
   .node, .namespc, .serviceaccount, .role, .rolebinding, .clusterrole,
   .clusterrolebinding, .networkpolicy, .hpa, .vpa, .endpoints, .event]

/-- Python `ResourceKind(kind_str)`: look the string up among the members'
values; `none` embeds the `ValueError` raised for an unrecognized kind. -/
def resourceKindOfString (s : String) : Option ResourceKind :=
  allKinds.find? (fun k => kindValue k = s)

/-- Python attribute access `ResourceKind.LOGANALYSIS`.  `models.py`
declares no such member (its enumeration stops at `EVENT`), so this access
raises `AttributeError` at runtime; the embedding records that as `none`.
Referenced by `parsers/base.py` line 368 and `scoring/engine.py` line 393. -/
def logAnalysisMember : Option ResourceKind := none

/-- Uniform resource record, from `models.py` lines 70-110.  The Python
`events` field (always left at its default by the code under test) is
omitted; `labels`/`annotations` are string maps (`annotations` shortened to
`annots`, and `namespace` — a Lean keyword — to `namespc`);
`creation_timestamp` is a rational number of hours since an arbitrary
epoch, `none` embedding Python `None`. -/
structure ResourceRecord where
  kind : ResourceKind
  name : String
  uid : String
  namespc : Option String := none
  properties : List (String × JValue) := []
  status : Option String := none
  creation_timestamp : Option ℚ := none
  labels : List (String × String) := []
  annots : List (String × String) := []

/-- Character-level `str.split(sep)` for a single-character separator,
implemented structurally so that it reduces definitionally (Python's exact
semantics, e.g. `"" ↦ [""]`, `"a." ↦ ["a", ""]`). -/
def splitChar (sep : Char) : List Char → List (List Char)
  | [] => [[]]
  | c :: cs =>
    match splitChar sep cs with
    | seg :: rest =>
      if c = sep then [] :: seg :: rest else (c :: seg) :: rest
    | [] => []

/-- Python `key.split('.')` as used by `get_property`. -/
def pySplitDot (s : String) : List String :=
  (splitChar '.' s.data).map (fun l => ⟨l⟩)

/-- Property accessor `ResourceRecord.get_property` (`models.py` lines
100-110): split the key on dots, then repeatedly index `value[k]`.  A step
succeeds only when the current value is a dict containing the component
(`KeyError` on a missing key, `TypeError` on indexing a non-dict with a
string — both caught, yielding the default).  A list is never indexable by
a string component, so it also raises `TypeError`. -/
def getPropStep (v : JValue) (k : String) : Option JValue :=
  match v with
  | .obj kvs => objLookup kvs k
  | _ => none

/-- Loop body of `get_property`: thread `value = value[k]` through the
components, stopping with `none` at the first raised `KeyError`/`TypeError`. -/
def getPropLoop (v : JValue) : List String → Option JValue
  | [] => some v
  | k :: ks =>
    match getPropStep v k with
    | some v' => getPropLoop v' ks
    | none => none

/-- The full `get_property(key, default)` (`models.py` lines 100-110):
`key.split('.')`, then the indexing loop, with the caught-exception branch
returning `default`. -/
def ResourceRecord.get_property (r : ResourceRecord) (key : String)
    (default : JValue) : JValue :=
  match getPropLoop (.obj r.properties) (pySplitDot key) with
  | some v => v
  | none => default

/-- Specification-side accessor for claim C10, written from the claim's
words rather than the code: return the nested value when every path
component resolves through map lookups, and the supplied default in all
other cases (missing key, or an intermediate value that is not indexable by
the component). -/
def getPropertySpec (r : ResourceRecord) (key : String)
    (default : JValue) : JValue :=
  let rec resolve (v : JValue) : List String → Option JValue
    | [] => some v
    | k :: ks =>
      match v with
      | .obj kvs =>
        match objLookup kvs k with
        | some v' => resolve v' ks
        | none => none
      | _ => none
  (resolve (.obj r.properties) (pySplitDot key)).getD default

theorem getPropLoop_eq_resolve (v : JValue) (ks : List String) :
    getPropLoop v ks = getPropertySpec.resolve v ks := by
  induction ks generalizing v with
  | nil => rfl
  | cons k ks ih =>
    cases v <;>
      simp only [getPropLoop, getPropStep, getPropertySpec.resolve]
    cases objLookup _ k <;> simp [ih]

end KubectlSmart

namespace KubectlSmart

/-- C10: For every `ResourceRecord` and every dotted-path key string,
`get_property` is total: it never raises, returns the nested value when
every path component resolves through map lookups, and returns the supplied
default in all other cases (missing key, or an intermediate value that is
not indexable by the component).  Totality is inherent to the Lean
embedding (the translated code has no uncaught exception path); the
behaviour is proved equal to the claim-side accessor. -/
theorem c10_get_property_total (r : ResourceRecord) (key : String)
    (default : JValue) :
    r.get_property key default = getPropertySpec r key default := by
  unfold ResourceRecord.get_property getPropertySpec
  rw [getPropLoop_eq_resolve]
  cases getPropertySpec.resolve (.obj r.properties) (pySplitDot key) <;> rfl

/-- One sample of the persistent PVC-utilization series
(`forecast/predictor.py` line 241): the dict `{"ts": iso-timestamp,
"util": utilization}`. -/
structure PvcSample where
  ts : String
  util : ℚ
deriving DecidableEq, Repr

/-- The `"pvc"` map of the forecasting cache file
(`<user-cache>/kubectl-smart/metrics.json`): key `"<namespace>/<pvc>"` to
its sample series, embedded as an association list in insertion order. -/
def PvcCache := List (String × List PvcSample)

/-- Python dict lookup with `[]` default on the cache map (the
`setdefault(key, [])` read side of `predictor.py` line 239). -/
def cacheLookup (c : PvcCache) (k : String) : List PvcSample :=
  match c with
  | [] => []
  | (k', v) :: rest => if k' = k then v else cacheLookup rest k

/-- Write a key's series back into the cache map; a fresh key is inserted
at the end, as Python's `setdefault` does. -/
def cacheSet (c : PvcCache) (k : String) (v : List PvcSample) : PvcCache :=
  match c with
  | [] => [(k, v)]
  | (k', v') :: rest =>
    if k' = k then (k, v) :: rest else (k', v') :: cacheSet rest k v

/-- Trim step of `_append_pvc_utilization_sample` (`predictor.py` lines
243-244): `if len(series) > 50: series[:] = series[-50:]`. -/
def trimSeries (s : List PvcSample) : List PvcSample :=
  if s.length > 50 then s.drop (s.length - 50) else s

/-- Series-level effect of one append (`predictor.py` lines 239-244):
`series.append({"ts": …, "util": …})` followed by the cap-at-50 trim. -/
def appendSampleSeries (s : List PvcSample) (x : PvcSample) : List PvcSample :=
  trimSeries (s ++ [x])

/-- `ForecastingEngine._append_pvc_utilization_sample` (`predictor.py`
lines 228-248) on a well-formed cache document: read the series keyed by
`f"{namespace}/{pvc}"`, append one sample stamped with the current time,
trim to the last 50 and write back.  The atomic temp-file rename concerns
the filesystem only and is not part of the embedded state transition. -/
def appendPvcSample (c : PvcCache) (namespc pvcName nowIso : String)
    (util : ℚ) : PvcCache :=
  let key := namespc ++ "/" ++ pvcName
  cacheSet c key (appendSampleSeries (cacheLookup c key) ⟨nowIso, util⟩)

theorem cacheLookup_cacheSet (c : PvcCache) (k : String)
    (v : List PvcSample) : cacheLookup (cacheSet c k v) k = v := by
  induction c with
  | nil => simp [cacheSet, cacheLookup]
  | cons kv rest ih =>
    by_cases h : kv.1 = k <;> simp [cacheSet, cacheLookup, h, ih]

theorem appendSampleSeries_eq (s : List PvcSample) (x : PvcSample) :
    appendSampleSeries s x =
      s.drop (if s.length + 1 > 50 then s.length + 1 - 50 else 0) ++ [x] := by
  unfold appendSampleSeries trimSeries
  by_cases h : s.length + 1 > 50
  · have hle : s.length + 1 - 50 ≤ s.length := by omega
    simp only [List.length_append, List.length_cons, List.length_nil, h,
      if_pos h]
    rw [List.drop_append_of_le_length hle]
    simp
  · simp [h]

theorem appendSampleSeries_length_le (s : List PvcSample) (x : PvcSample) :
    (appendSampleSeries s x).length ≤ 50 := by
  rw [appendSampleSeries_eq]
  by_cases h : s.length + 1 > 50 <;> simp [h, List.length_drop] <;> omega

end KubectlSmart

namespace KubectlSmart

/-- C9: For every (namespace, pvc) key of the forecasting cache, appending
the same sample twice yields two entries in append order (stated more
generally for any two samples `x`, `y`: after the two appends the stored
series ends with `[x, y]`); after every append the stored series for that
key has at most 50 samples, and is a suffix of the previous series plus the
new sample (the most recent ones). -/
theorem c9_cache_append_order_and_cap (c : PvcCache)
    (ns pvc : String) (x y : PvcSample) :
    [x, y] <:+ cacheLookup
        (appendPvcSample (appendPvcSample c ns pvc x.ts x.util)
          ns pvc y.ts y.util) (ns ++ "/" ++ pvc)
    ∧ (cacheLookup (appendPvcSample c ns pvc x.ts x.util)
        (ns ++ "/" ++ pvc)).length ≤ 50
    ∧ (cacheLookup (appendPvcSample (appendPvcSample c ns pvc x.ts x.util)
        ns pvc y.ts y.util) (ns ++ "/" ++ pvc)).length ≤ 50
    ∧ cacheLookup (appendPvcSample c ns pvc x.ts x.util) (ns ++ "/" ++ pvc)
        <:+ cacheLookup c (ns ++ "/" ++ pvc) ++ [x] := by
  unfold appendPvcSample
  simp only [cacheLookup_cacheSet]
  refine ⟨?_, appendSampleSeries_length_le _ _,
    appendSampleSeries_length_le _ _, ?_⟩
  · set s := cacheLookup c (ns ++ "/" ++ pvc) with hs
    have h1 : appendSampleSeries s ⟨x.ts, x.util⟩ =
        s.drop (if s.length + 1 > 50 then s.length + 1 - 50 else 0)
          ++ [⟨x.ts, x.util⟩] := appendSampleSeries_eq s _
    set l := s.drop (if s.length + 1 > 50 then s.length + 1 - 50 else 0)
      with hl
    rw [h1, appendSampleSeries_eq]
    set k := (if (l ++ [(⟨x.ts, x.util⟩ : PvcSample)]).length + 1 > 50
      then (l ++ [(⟨x.ts, x.util⟩ : PvcSample)]).length + 1 - 50 else 0)
      with hk
    have hlen : (l ++ [(⟨x.ts, x.util⟩ : PvcSample)]).length = l.length + 1 := by
      simp
    have hkle : k ≤ l.length := by
      rw [hk, hlen]
      by_cases hc : l.length + 1 + 1 > 50
      · rw [if_pos hc]; omega
      · rw [if_neg hc]; omega
    rw [List.drop_append_of_le_length hkle]
    have hx : (⟨x.ts, x.util⟩ : PvcSample) = x := rfl
    have hy : (⟨y.ts, y.util⟩ : PvcSample) = y := rfl
    rw [hx, hy, List.append_assoc]
    exact List.suffix_append _ _
  · rw [appendSampleSeries_eq]
    have hx : (⟨x.ts, x.util⟩ : PvcSample) = x := rfl
    rw [hx]
    obtain ⟨t, ht⟩ := List.drop_suffix
      (if (cacheLookup c (ns ++ "/" ++ pvc)).length + 1 > 50
        then (cacheLookup c (ns ++ "/" ++ pvc)).length + 1 - 50 else 0)
      (cacheLookup c (ns ++ "/" ++ pvc))
    exact ⟨t, by rw [← List.append_assoc, ht]⟩

/-- Python exceptions that can escape or be caught in the embedded code. -/
inductive PyErr where
  | typeError | attributeError | valueError
deriving DecidableEq, Repr

/-- Derived identifier `ResourceRecord.full_name` (`models.py` lines
88-93): `Kind/Namespace/Name`, namespace omitted when `None` (or empty,
via Python truthiness). -/
def ResourceRecord.full_name (r : ResourceRecord) : String :=
  match r.namespc with
  | some ns => if ns ≠ "" then kindValue r.kind ++ "/" ++ ns ++ "/" ++ r.name
               else kindValue r.kind ++ "/" ++ r.name
  | none => kindValue r.kind ++ "/" ++ r.name

/-- Structural worker for the substring test: does `p` occur as a
contiguous sublist of `l`? -/
def subOccurs (p : List Char) : List Char → Bool
  | [] => p.isEmpty
  | c :: cs => p.isPrefixOf (c :: cs) || subOccurs p cs

/-- Python substring test `pat in s` for strings (empty pattern is always
contained). -/
def pySubstr (pat s : String) : Bool :=
  subOccurs pat.data s.data

/-- Does an embedded JValue equal a given Python string under `==`?  Only a
string value with the same content does. -/
def jIsStr (v : JValue) (s : String) : Bool :=
  match v with
  | .str t => t = s
  | _ => false

/-- Python membership `k in v` for a string key `k`: key lookup on dicts,
substring test on strings, element equality on lists, `TypeError` on the
remaining scalar values. -/
def pyIn (k : String) (v : JValue) : Except PyErr Bool :=
  match v with
  | .obj kvs => .ok ((objLookup kvs k).isSome)
  | .str s => .ok (pySubstr k s)
  | .arr xs => .ok (xs.any (fun x => jIsStr x k))
  | _ => .error .typeError

/-- Python `v.get(k, d)`: dict lookup with default; `AttributeError` when
`v` is not a dict. -/
def jGetD (v : JValue) (k : String) (d : JValue) : Except PyErr JValue :=
  match v with
  | .obj kvs => .ok (objGetD kvs k d)
  | _ => .error .attributeError

/-- One `certificate_expiry` warning from
`ForecastingEngine._check_secret_certificates` (`predictor.py` lines
316-324).  The presentation-only fields (`message`, iso `expiry_date`,
`suggested_action`, the literal `'type'`/`'certificate_type'` tags) are
functions of the two fields kept here and are omitted. -/
structure CertWarning where
  resource : String
  days_until_expiry : ℤ
deriving DecidableEq, Repr

/-- `ForecastingEngine._check_secret_certificates` (`predictor.py` lines
287-328).  The external cryptography stack — `base64.b64decode`, PEM-then-
DER X.509 parsing, `not_valid_after` extraction and the
`(expiry - now).days` arithmetic — is abstracted into the oracle
`decode : String → Option ℤ`, which maps a certificate blob string to the
resulting `days_until_expiry` at the (fixed) evaluation instant, with
`none` for any exception inside the `try` (all caught).  Everything else
follows the source: the type gate against `kubernetes.io/tls`/`Opaque`,
the `'tls.crt' not in data and 'cert' not in data` short-circuit, the
selection `data.get('tls.crt', data.get('cert', ''))`, the truthiness
gate on `cert_data`, and the `days_until_expiry <= 14` emission test.
Uncaught `TypeError`/`AttributeError` (non-dict `data`) are propagated
as `Except.error`.  The tail after `cert_data` is selected (`predictor.py`
lines 303-327: truthiness gate, decode attempt, `days <= 14` test) is
split into `certTail`. -/
def certTail (decode : String → Option ℤ) (name : String)
    (certData : JValue) : List CertWarning :=
  if jTruthy certData then
    match certData with
    | .str s =>
      match decode s with
      | some d => if d ≤ 14 then [⟨name, d⟩] else []
      | none => []
    | _ => []
  else []

def certSelect (decode : String → Option ℤ) (name : String)
    (data : JValue) : Except PyErr (List CertWarning) :=
  match jGetD data "cert" (.str "") with
  | .error e => .error e
  | .ok inner =>
    match jGetD data "tls.crt" inner with
    | .error e => .error e
    | .ok certData => .ok (certTail decode name certData)

def checkSecretCertificates (decode : String → Option ℤ)
    (secret : ResourceRecord) : Except PyErr (List CertWarning) :=
  if !(jIsStr (secret.get_property "type" (.str "")) "kubernetes.io/tls"
      || jIsStr (secret.get_property "type" (.str "")) "Opaque") then
    .ok []
  else
    let data := secret.get_property "data" (.obj [])
    match pyIn "tls.crt" data with
    | .error e => .error e
    | .ok hasTls =>
      if !hasTls then
        match pyIn "cert" data with
        | .error e => .error e
        | .ok hasCert =>
          if !hasCert then .ok []
          else certSelect decode secret.full_name data
      else certSelect decode secret.full_name data

/-- The certificate blob the code actually selects for a dict-shaped
`data`: the `tls.crt` entry whenever that key is present, else the `cert`
entry, else nothing — `data.get('tls.crt', data.get('cert', ''))` guarded
by the key-presence test (`predictor.py` lines 298-302). -/
def selectedCertData (secret : ResourceRecord) : Option JValue :=
  match secret.get_property "data" (.obj []) with
  | .obj kvs =>
    match objLookup kvs "tls.crt" with
    | some v => some v
    | none => objLookup kvs "cert"
  | _ => none

/-- Type gate of `_check_secret_certificates`: the secret's `type`
property equals `kubernetes.io/tls` or `Opaque`. -/
def secretTypeOk (secret : ResourceRecord) : Prop :=
  jIsStr (secret.get_property "type" (.str "")) "kubernetes.io/tls" = true
  ∨ jIsStr (secret.get_property "type" (.str "")) "Opaque" = true

theorem certTail_ne_nil (decode : String → Option ℤ) (name : String)
    (v : JValue) :
    certTail decode name v ≠ [] ↔
      ∃ s d, v = .str s ∧ s ≠ "" ∧ decode s = some d ∧ d ≤ 14 := by
  cases v with
  | str s =>
    by_cases hs : s = ""
    · subst hs; simp [certTail, jTruthy]
    · simp only [certTail, jTruthy, hs]
      cases hd : decode s with
      | none => simp [hs, hd]
      | some d =>
        by_cases h14 : d ≤ 14 <;> simp [hs, hd, h14]
  | null => simp [certTail, jTruthy]
  | bool b => cases b <;> simp [certTail, jTruthy]
  | num q => by_cases hq : q = 0 <;> simp [certTail, jTruthy, hq]
  | arr xs => cases xs <;> simp [certTail, jTruthy]
  | obj kvs => cases kvs <;> simp [certTail, jTruthy]

/-- The concrete secret refuting claim C8 as stated: a `kubernetes.io/tls`
secret whose `data` has an undecodable `tls.crt` entry next to a `cert`
entry that does decode to a certificate expiring in 10 days. -/
def shadowedSecret : ResourceRecord :=
  { kind := .secret, name := "tls-a", uid := "sec-uid-1",
    namespc := some "default",
    properties :=
      [("spec", .obj []), ("status", .obj []), ("metadata", .obj []),
       ("data", .obj [("tls.crt", .str "NOTACERT"),
                      ("cert", .str "GOODCERT")]),
       ("type", .str "kubernetes.io/tls")] }

/-- Decode oracle for the C8 counterexample: only the blob `"GOODCERT"`
parses, as a certificate whose `notAfter` is 10 days away. -/
def decodeC8 : String → Option ℤ :=
  fun s => if s = "GOODCERT" then some 10 else none

end KubectlSmart

namespace KubectlSmart

/-- C8 counterexample: the claim says a Secret of type `kubernetes.io/tls`
whose data contains a `cert` entry decoding to an X.509 certificate gets a
`certificate_expiry` warning whenever `daysUntilExpiry ≤ 14`.
`shadowedSecret` has such a `cert` entry (10 days ≤ 14), yet the code
emits no warning: `data.get('tls.crt', data.get('cert', ''))` selects the
present-but-undecodable `tls.crt` value, whose parse failure is swallowed. -/
theorem c8_counterexample :
    checkSecretCertificates decodeC8 shadowedSecret = .ok []
    ∧ decodeC8 "GOODCERT" = some 10 ∧ (10 : ℤ) ≤ 14 := by
  refine ⟨?_, rfl, by norm_num⟩
  rfl

/-- C8 amended: for every Secret on which `_check_secret_certificates`
returns normally, a `certificate_expiry` warning is emitted iff the
secret's type is `kubernetes.io/tls` or `Opaque` and the entry the code
selects — the `tls.crt` entry when that key is present, else the `cert`
entry — is a non-empty string that decodes to a certificate with
`daysUntilExpiry ≤ 14`.  In particular a selected certificate whose
`notAfter` is exactly 14 days away yields a warning and one 15 days away
does not. -/
theorem c8_cert_warning_iff (decode : String → Option ℤ)
    (sec : ResourceRecord) (w : List CertWarning)
    (h : checkSecretCertificates decode sec = .ok w) :
    w ≠ [] ↔
      secretTypeOk sec ∧
      ∃ s d, selectedCertData sec = some (.str s) ∧ s ≠ "" ∧
        decode s = some d ∧ d ≤ 14 := by
  by_cases hgate : (jIsStr (sec.get_property "type" (.str ""))
      "kubernetes.io/tls" || jIsStr (sec.get_property "type" (.str ""))
      "Opaque") = true
  · have hst : secretTypeOk sec := by
      unfold secretTypeOk; simpa using hgate
    simp only [checkSecretCertificates, hgate, Bool.not_true,
      Bool.false_eq_true, if_false] at h
    cases hdata : sec.get_property "data" (.obj []) with
    | obj kvs =>
      rw [hdata] at h
      cases hTls : objLookup kvs "tls.crt" with
      | some v =>
        simp only [pyIn, hTls, Option.isSome_some, Bool.not_true,
          Bool.false_eq_true, if_false, certSelect, jGetD, objGetD, hTls,
          Option.getD_some, Except.ok.injEq] at h
        subst h
        rw [certTail_ne_nil]
        have hsel : selectedCertData sec = some v := by
          simp [selectedCertData, hdata, hTls]
        constructor
        · rintro ⟨s, d, hv, hrest⟩
          exact ⟨hst, s, d, by rw [hsel, hv], hrest⟩
        · rintro ⟨-, s, d, hs, hrest⟩
          rw [hsel] at hs
          exact ⟨s, d, (Option.some_inj.mp hs).symm ▸ rfl, hrest⟩
      | none =>
        cases hCert : objLookup kvs "cert" with
        | none =>
          simp only [pyIn, hTls, hCert, Option.isSome_none, Bool.not_false,
            if_true, Except.ok.injEq] at h
          subst h
          have hsel : selectedCertData sec = none := by
            simp [selectedCertData, hdata, hTls, hCert]
          simp [hsel]
        | some v =>
          simp only [pyIn, hTls, hCert, Option.isSome_none,
            Option.isSome_some, Bool.not_false, Bool.not_true,
            Bool.false_eq_true, if_true, if_false, certSelect, jGetD,
            objGetD, hTls, hCert, Option.getD_some, Option.getD_none,
            Except.ok.injEq] at h
          subst h
          rw [certTail_ne_nil]
          have hsel : selectedCertData sec = some v := by
            simp [selectedCertData, hdata, hTls, hCert]
          constructor
          · rintro ⟨s, d, hv, hrest⟩
            exact ⟨hst, s, d, by rw [hsel, hv], hrest⟩
          · rintro ⟨-, s, d, hs, hrest⟩
            rw [hsel] at hs
            exact ⟨s, d, (Option.some_inj.mp hs).symm ▸ rfl, hrest⟩
    | str s =>
      rw [hdata] at h
      have hsel : selectedCertData sec = none := by
        simp [selectedCertData, hdata]
      cases hsub : pySubstr "tls.crt" s with
      | true => simp [pyIn, hsub, certSelect, jGetD] at h
      | false =>
        cases hsub2 : pySubstr "cert" s with
        | true => simp [pyIn, hsub, hsub2, certSelect, jGetD] at h
        | false =>
          simp only [pyIn, hsub, hsub2, Bool.not_false, if_true,
            Except.ok.injEq] at h
          subst h
          simp [hsel]
    | arr xs =>
      rw [hdata] at h
      have hsel : selectedCertData sec = none := by
        simp [selectedCertData, hdata]
      cases hm : xs.any (fun x => jIsStr x "tls.crt") with
      | true => simp [pyIn, hm, certSelect, jGetD] at h
      | false =>
        cases hm2 : xs.any (fun x => jIsStr x "cert") with
        | true => simp [pyIn, hm, hm2, certSelect, jGetD] at h
        | false =>
          simp only [pyIn, hm, hm2, Bool.not_false, if_true,
            Except.ok.injEq] at h
          subst h
          simp [hsel]
    | null => rw [hdata] at h; simp [pyIn] at h
    | bool b => rw [hdata] at h; simp [pyIn] at h
    | num q => rw [hdata] at h; simp [pyIn] at h
  · simp only [checkSecretCertificates,
      Bool.not_eq_true] at h hgate
    rw [hgate] at h
    simp only [Bool.not_false, if_true, Except.ok.injEq] at h
    subst h
    simp only [ne_eq, not_true_eq_false, false_iff, not_and]
    intro htype
    rcases htype with h' | h' <;> simp [secretTypeOk, h'] at hgate ⊢

/-- Witness for `c8_cert_warning_iff` at a concrete secret: a
`kubernetes.io/tls` secret whose `tls.crt` decodes with exactly 14 days
left; the theorem's hypothesis is discharged by evaluation and the iff
instance is closed. -/
theorem c8_cert_warning_iff_witness :
    ([(⟨"Secret/default/tls-b", (14 : ℤ)⟩ : CertWarning)] ≠ [] ↔
      secretTypeOk
        { kind := .secret, name := "tls-b", uid := "sec-uid-2",
          namespc := some "default",
          properties :=
            [("data", .obj [("tls.crt", .str "CERT14")]),
             ("type", .str "kubernetes.io/tls")] } ∧
      ∃ s d, selectedCertData
          { kind := .secret, name := "tls-b", uid := "sec-uid-2",
            namespc := some "default",
            properties :=
              [("data", .obj [("tls.crt", .str "CERT14")]),
               ("type", .str "kubernetes.io/tls")] } = some (.str s) ∧
        s ≠ "" ∧
        (fun t => if t = "CERT14" then some (14 : ℤ) else none) s = some d ∧
        d ≤ 14) :=
  c8_cert_warning_iff
    (fun t => if t = "CERT14" then some (14 : ℤ) else none)
    { kind := .secret, name := "tls-b", uid := "sec-uid-2",
      namespc := some "default",
      properties :=
        [("data", .obj [("tls.crt", .str "CERT14")]),
         ("type", .str "kubernetes.io/tls")] }
    [⟨"Secret/default/tls-b", (14 : ℤ)⟩] (by rfl)

end KubectlSmart

namespace KubectlSmart

/-- ASCII `str.lower()` on one character (the log lines and keyword
patterns the code compares are ASCII). -/
def lowerChar (c : Char) : Char :=
  if 'A' ≤ c ∧ c ≤ 'Z' then Char.ofNat (c.toNat + 32) else c

/-- Python `s.lower()` (ASCII fragment). -/
def pyLower (s : String) : String := ⟨s.data.map lowerChar⟩

/-- Python whitespace for `str.strip()`. -/
def isPyWs (c : Char) : Bool :=
  c = ' ' || c = '\t' || c = '\n' || c = '\r' || c = '\x0b' || c = '\x0c'

/-- Python `s.strip()`: drop whitespace from both ends. -/
def pyStrip (s : String) : String :=
  ⟨((s.data.dropWhile isPyWs).reverse.dropWhile isPyWs).reverse⟩

/-- Python `s.splitlines()` restricted to `\n`-separated text (the only
separator the embedded inputs use): like split on `'\n'` but without a
trailing empty segment, and `[]` for the empty string. -/
def pySplitLines (s : String) : List String :=
  if s = "" then []
  else
    let parts := (splitChar '\n' s.data).map (fun l => (⟨l⟩ : String))
    if s.data.getLast? = some '\n' then parts.dropLast else parts

/-- Error-line heuristics of `LogParser.feed` (`parsers/base.py` lines
340-341). -/
def errorPatterns : List String :=
  ["error", "exception", "panic", "fatal", "fail", "crash"]

def ignorePatterns : List String := ["deprecated", "warning"]

/-- Line filter of `LogParser.feed` (`parsers/base.py` line 345): the
lowercased line contains some error pattern and no ignore pattern. -/
def matchesErrorLine (line : String) : Bool :=
  (errorPatterns.any (fun p => pySubstr p (pyLower line))) &&
  !(ignorePatterns.any (fun p => pySubstr p (pyLower line)))

/-- Timestamp-stripping normalization of `LogParser.feed` (`parsers/base.py`
lines 347-349): when the line is longer than 20 characters and character 19
is `'T'` or `' '`, the first 20 characters are dropped and the rest
stripped. -/
def cleanLine (line : String) : String :=
  if line.length > 20 ∧
      (line.data.get? 19 = some 'T' ∨ line.data.get? 19 = some ' ') then
    pyStrip ⟨line.data.drop 20⟩
  else line

/-- Deduplicating scan of `LogParser.feed` (`parsers/base.py` lines
343-353): collect `line.strip()` for each matching line whose normalized
form has not been seen. -/
def logScan (lines : List String) : List String :=
  (lines.foldl
    (fun (st : List String × List String) line =>
      if matchesErrorLine line then
        let clean := cleanLine line
        if st.2.contains clean then st
        else (st.1 ++ [pyStrip line], clean :: st.2)
      else st)
    ([], [])).1

/-- `LogParser.feed` (`parsers/base.py` lines 318-377).  The blob's `data`
is taken as the log text (the dict-wrapped `raw` path is resolved by the
caller for the embedded inputs); `nowTs` stands for `datetime.utcnow()`
(used only in the record's uid).  The record construction at line 368
reads `ResourceKind.LOGANALYSIS`, a member `models.py` does not define,
so it raises `AttributeError`; the surrounding `except Exception` (lines
375-377) turns that into an empty result — the `logAnalysisMember` match
embeds exactly that. -/
def logParserFeed (contentType blobData : String) (nowTs : ℚ) :
    List ResourceRecord :=
  if contentType ≠ "text/plain" then []
  else if pyStrip blobData = "" then []
  else
    let lines := pySplitLines blobData
    let uniqueErrors := logScan lines
    if uniqueErrors.isEmpty then []
    else
      let lastFive := uniqueErrors.drop (uniqueErrors.length - 5)
      match logAnalysisMember with
      | none => []
      | some k =>
        [{ kind := k, name := "log-analysis",
           uid := "log-" ++ toString nowTs,
           properties :=
             [("errors", .arr (lastFive.map .str)),
              ("log_count", .num lines.length),
              ("error_count", .num lastFive.length)],
           status := some "Analyzed" }]

end KubectlSmart

namespace KubectlSmart

/-- C3: the claim says a `text/plain` logs blob with at least one matching
error line yields exactly one `LogAnalysis` record.  In the code,
`ResourceKind.LOGANALYSIS` does not exist (`models.py` lines 18-46), so
the record construction always raises and `LogParser.feed` returns `[]`
for every input — exhibited here together with a concrete blob whose line
filter does match, so that the claim demands one record where the code
produces none. -/
theorem c3_logparser_never_emits :
    (∀ ct s t, logParserFeed ct s t = []) ∧
    logScan (pySplitLines "error: connection refused") =
      ["error: connection refused"] := by
  constructor
  · intro ct s t
    unfold logParserFeed
    by_cases h1 : ct ≠ "text/plain"
    · simp [h1]
    · by_cases h2 : pyStrip s = "" <;> by_cases h3 :
        (logScan (pySplitLines s)).isEmpty <;>
        simp [h1, h2, h3, logAnalysisMember]
  · rfl

/-- Python iteration `for x in v`: lists yield elements, dicts their keys,
strings their characters; scalars raise `TypeError` (embedded as `none`). -/
def pyIterList (v : JValue) : Option (List JValue) :=
  match v with
  | .arr xs => some xs
  | .obj kvs => some (kvs.map (fun kv => .str kv.1))
  | .str s => some (s.data.map (fun c => .str ⟨[c]⟩))
  | _ => none

/-- Validation of a `Dict[str, str]` pydantic field: an embedded dict all
of whose values are strings; anything else fails record validation. -/
def asStrMap : JValue → Option (List (String × String))
  | .obj kvs =>
    kvs.foldr
      (fun kv acc =>
        match kv.2, acc with
        | .str s, some m => some ((kv.1, s) :: m)
        | _, _ => none)
      (some [])
  | _ => none

/-- Condition-scanning loop shared by the Node and workload branches of
`_extract_resource_status` (`parsers/base.py` lines 189-201): find the
first condition of the given type and map its `status == 'True'` test to
one of two labels; `some none` means the loop finished without a match,
outer `none` a raised `AttributeError` (non-dict condition). -/
def condLoop (condType sTrue sFalse : String) :
    List JValue → Option (Option String)
  | [] => some none
  | c :: rest =>
    match c with
    | .obj kvs =>
      if jIsStr (objGetD kvs "type" .null) condType then
        some (some (if jIsStr (objGetD kvs "status" .null) "True"
          then sTrue else sFalse))
      else condLoop condType sTrue sFalse rest
    | _ => none

/-- Job branch of `_extract_resource_status` (`parsers/base.py` lines
213-220): the first condition typed `Complete` or `Failed` decides. -/
def jobCondLoop : List JValue → Option (Option String)
  | [] => some none
  | c :: rest =>
    match c with
    | .obj kvs =>
      if jIsStr (objGetD kvs "type" .null) "Complete" then
        some (some (if jIsStr (objGetD kvs "status" .null) "True"
          then "Complete" else "Running"))
      else if jIsStr (objGetD kvs "type" .null) "Failed" then
        some (some (if jIsStr (objGetD kvs "status" .null) "True"
          then "Failed" else "Running"))
      else jobCondLoop rest
    | _ => none

/-- Helper for the condition-based branches: run a loop over
`status_obj.get('conditions', [])` with a default label. -/
def condStatus (statusObj : JValue)
    (loop : List JValue → Option (Option String)) (deflt : String) :
    Option JValue :=
  match statusObj with
  | .obj skvs =>
    match pyIterList (objGetD skvs "conditions" (.arr [])) with
    | some conds =>
      match loop conds with
      | some (some s) => some (.str s)
      | some none => some (.str deflt)
      | none => none
    | none => none
  | _ => none

/-- `KubernetesResourceParser._extract_resource_status` (`parsers/base.py`
lines 182-224), on the resource's top-level dict `kvs`: phase for
Pod/PVC/PV, `Ready`/`NotReady` from the `Ready` condition for Node,
`Available`/`Unavailable` for Deployment/StatefulSet/DaemonSet,
`Complete`/`Failed`/`Running` for Job, `Active` for Service and everything
else.  `none` embeds an exception raised while reading a malformed status
subtree (caught by the caller, dropping the item). -/
def extractResourceStatus (kvs : List (String × JValue))
    (kind : ResourceKind) : Option JValue :=
  let statusObj := objGetD kvs "status" (.obj [])
  match kind with
  | .pod =>
    match statusObj with
    | .obj skvs => some (objGetD skvs "phase" (.str "Unknown"))
    | _ => none
  | .node => condStatus statusObj (condLoop "Ready" "Ready" "NotReady")
      "Unknown"
  | .deployment => condStatus statusObj
      (condLoop "Available" "Available" "Unavailable") "Unknown"
  | .statefulset => condStatus statusObj
      (condLoop "Available" "Available" "Unavailable") "Unknown"
  | .daemonset => condStatus statusObj
      (condLoop "Available" "Available" "Unavailable") "Unknown"
  | .pvc =>
    match statusObj with
    | .obj skvs => some (objGetD skvs "phase" (.str "Unknown"))
    | _ => none
  | .pv =>
    match statusObj with
    | .obj skvs => some (objGetD skvs "phase" (.str "Unknown"))
    | _ => none
  | .service => some (.str "Active")
  | .job => condStatus statusObj jobCondLoop "Running"
  | _ => some (.str "Active")

/-- `KubernetesResourceParser._parse_single_resource` (`parsers/base.py`
lines 120-180): map the kind string through the enum (unknown → drop),
require truthy `metadata.name` and `metadata.uid`, parse the creation
timestamp through the external iso-parser oracle `parseTs` (failures
logged and mapped to `None`), extract labels/annotations and the
normalized status, keep the `spec`/`status`/`metadata` (and, when
present, `data`/`type`) subtrees in `properties`.  `none` embeds every
dropped-item path: unknown kind, falsy name/uid, or any exception or
pydantic validation failure inside the enclosing `try` (the embedding
treats off-type `name`/`uid`/`namespace`/`labels`/`annotations`/`status`
values as validation failures; the coercions pydantic may apply to exotic
scalar payloads are outside the claims' inputs). -/
def parseSingleResource (parseTs : String → Option ℚ) (item : JValue) :
    Option ResourceRecord :=
  match item with
  | .obj kvs =>
    let metaJ := objGetD kvs "metadata" (.obj [])
    match objGetD kvs "kind" (.str "Unknown"), metaJ with
    | .str kindStr, .obj mkvs =>
      match resourceKindOfString kindStr with
      | none => none
      | some kind =>
        match objGetD mkvs "name" .null, objGetD mkvs "uid" (.str "") with
        | .str name, .str uid =>
          if name = "" ∨ uid = "" then none
          else
            let ctsJ := objGetD mkvs "creationTimestamp" .null
            let cts : Option ℚ :=
              match ctsJ with
              | .str s => if s = "" then none else parseTs s
              | _ => none
            match objGetD mkvs "namespace" .null with
            | .null => mkRecord parseTs kvs mkvs kind name uid none cts
            | .str ns => mkRecord parseTs kvs mkvs kind name uid (some ns)
                cts
            | _ => none
        | _, _ => none
    | _, _ => none
  | _ => none
where
  /-- Final construction and validation step of `_parse_single_resource`
  (`parsers/base.py` lines 147-176). -/
  mkRecord (_parseTs : String → Option ℚ) (kvs mkvs : List (String × JValue))
      (kind : ResourceKind) (name uid : String) (ns : Option String)
      (cts : Option ℚ) : Option ResourceRecord :=
    match asStrMap (objGetD mkvs "labels" (.obj [])),
        asStrMap (objGetD mkvs "annotations" (.obj [])),
        extractResourceStatus kvs kind with
    | some labels, some annots, some statusJ =>
      let status : Option (Option String) :=
        match statusJ with
        | .str s => some (some s)
        | .null => some none
        | _ => none
      match status with
      | none => none
      | some status =>
        some
          { kind := kind, name := name, uid := uid, namespc := ns,
            properties :=
              [("spec", objGetD kvs "spec" (.obj [])),
               ("status", objGetD kvs "status" (.obj [])),
               ("metadata", .obj mkvs)]
              ++ (match objLookup kvs "data" with
                  | some v => [("data", v)]
                  | none => [])
              ++ (match objLookup kvs "type" with
                  | some v => [("type", v)]
                  | none => []),
            status := status, creation_timestamp := cts,
            labels := labels, annots := annots }
    | _, _, _ => none

/-- `KubernetesResourceParser.feed` (`parsers/base.py` lines 92-118) on an
already-decoded JSON document (the `json.loads` call, the 5 MiB size gate
and the decode-failure `except`, all of which yield `[]`, happen before
the logic embedded here).  A `List` document maps
`_parse_single_resource` over its truthy items, *keeping* the `None`
results in the returned Python list — hence the element type
`Option ResourceRecord`; the single-document branch filters its `None`. -/
def kubernetesResourceFeed (parseTs : String → Option ℚ)
    (contentType : String) (data : JValue) : List (Option ResourceRecord) :=
  if contentType ≠ "application/json" then []
  else
    match data with
    | .obj kvs =>
      if jIsStr (objGetD kvs "kind" .null) "List" then
        match pyIterList (objGetD kvs "items" (.arr [])) with
        | some items =>
          (items.filter jTruthy).map (parseSingleResource parseTs)
        | none => []
      else
        match parseSingleResource parseTs (.obj kvs) with
        | some r => [some r]
        | none => []
    | _ => []

end KubectlSmart

namespace KubectlSmart

/-- C6: the claim says items with an unrecognized kind or missing name/uid
are dropped, so the returned list contains only valid records.  On a
`List` document the comprehension
`[self._parse_single_resource(item) for item in items if item]`
(`parsers/base.py` line 111) keeps the `None` produced for an invalid
item: a one-item list with an unrecognized kind returns `[None]`, not
`[]`.  The second conjunct shows a recognized, well-formed item in the
same list shape does produce exactly its record, so the `None` is the
retained dropped-item placeholder. -/
theorem c6_list_branch_keeps_none :
    kubernetesResourceFeed (fun _ => none) "application/json"
      (.obj [("kind", .str "List"),
             ("items", .arr
               [.obj [("kind", .str "FooBar"),
                      ("metadata", .obj [("name", .str "x"),
                                         ("uid", .str "u")])]])])
      = [none]
    ∧ kubernetesResourceFeed (fun _ => none) "application/json"
      (.obj [("kind", .str "List"),
             ("items", .arr
               [.obj [("kind", .str "Pod"),
                      ("metadata", .obj [("name", .str "web-1"),
                                         ("uid", .str "uid-1"),
                                         ("namespace", .str "default")]),
                      ("status", .obj [("phase", .str "Running")])]])])
      = [some
          { kind := .pod, name := "web-1", uid := "uid-1",
            namespc := some "default",
            properties :=
              [("spec", .obj []),
               ("status", .obj [("phase", .str "Running")]),
               ("metadata", .obj [("name", .str "web-1"),
                                  ("uid", .str "uid-1"),
                                  ("namespace", .str "default")])],
            status := some "Running", creation_timestamp := none,
            labels := [], annots := [] }] := by
  exact ⟨rfl, rfl⟩

end KubectlSmart

namespace KubectlSmart

/-- Issue severity levels (`models.py` lines 49-54): a `str`-valued enum
whose member values are the lowercase strings used in sort keys. -/
inductive IssueSeverity where
  | critical | warning | info
deriving DecidableEq, Repr

/-- String value of each `IssueSeverity` member (`models.py`):
`"critical"`, `"warning"`, `"info"`. -/
def sevValue : IssueSeverity → String
  | .critical => "critical"
  | .warning => "warning"
  | .info => "info"

/-- Scored observation (`models.py` lines 113-131).  Fields not read by
the embedded operations (`contributing_factors`, `related_events`,
`metadata`) are omitted; scores are rationals standing for the Python
floats. -/
structure Issue where
  resource_uid : String
  title : String
  description : String
  severity : IssueSeverity
  score : ℚ
  reason : String
  message : String
  timestamp : Option ℚ := none
  critical_path : Bool := false
  suggested_actions : List String := []
deriving DecidableEq, Repr

/-- Association-list lookup with default, embedding `dict.get(k, d)` for
the weights tables. -/
def lookupD (m : List (String × ℚ)) (k : String) (d : ℚ) : ℚ :=
  match m with
  | [] => d
  | (k', v) :: rest => if k' = k then v else lookupD rest k d

/-- Default `base_scores` table (`scoring/engine.py` lines 82-109; no
`weights.toml` ships with the package, so `_get_default_weights` is what
the engine uses). -/
def baseScores : List (String × ℚ) :=
  [("Failed", 50), ("FailedMount", 80), ("FailedScheduling", 85),
   ("ImagePullBackOff", 75), ("ErrImagePull", 75), ("Unhealthy", 70),
   ("NetworkNotReady", 60), ("BackOff", 30), ("Pulling", 10),
   ("Created", 5), ("Started", 5), ("Killing", 40), ("Preempting", 45),
   ("status_Failed", 90), ("status_Pending", 40), ("status_Unknown", 70),
   ("status_NotReady", 80), ("status_Unavailable", 75),
   ("status_Running", 0), ("status_Active", 0), ("status_Ready", 0),
   ("status_Available", 0), ("status_Bound", 0)]

/-- Default `multipliers.resource_type` table (`scoring/engine.py` lines
113-124), keyed by the kind's string value. -/
def resourceTypeMultipliers : List (String × ℚ) :=
  [("Node", 2), ("PersistentVolume", 9/5), ("PersistentVolumeClaim", 8/5),
   ("Pod", 6/5), ("Deployment", 7/5), ("StatefulSet", 3/2),
   ("DaemonSet", 7/5), ("Service", 13/10), ("ConfigMap", 11/10),
   ("Secret", 6/5)]

/-- Default `multipliers.event_type` table (`scoring/engine.py` lines
127-130). -/
def eventTypeMultipliers : List (String × ℚ) :=
  [("Warning", 2), ("Normal", 1)]

/-- Default keyword groups (`scoring/engine.py` lines 145-171), in dict
insertion order: `(patterns, bonus)` for `critical`, `warning`,
`resource_specific`. -/
def keywordGroups : List (List String × ℚ) :=
  [(["failed", "error", "timeout", "unable", "cannot", "denied",
     "not found", "no space", "disk full", "out of memory",
     "connection refused", "network unreachable", "permission denied"],
    15),
   (["warning", "deprecated", "retry", "backoff", "slow",
     "degraded", "limited", "throttled"], 8),
   (["insufficient", "exceeded", "quota", "limit", "capacity",
     "evicted", "preempted", "oomkilled"], 12)]

/-- `ScoringEngine._get_age_multiplier` (`scoring/engine.py` lines
334-364): bucket the age in hours between the explicit `now` — in the
source, `datetime.now(timezone.utc)` read inside the function — and the
issue's timestamp.  Timestamps are rational hours since an arbitrary
epoch; both instants are tz-aware, so the `except` branch (naive/aware
subtraction) is not reachable for the embedded inputs. -/
def getAgeMultiplier (now ts : ℚ) : ℚ :=
  let ageHours := now - ts
  if ageHours < 1 then 1
  else if ageHours < 6 then 9/10
  else if ageHours < 24 then 7/10
  else if ageHours < 168 then 1/2
  else 3/10

/-- `ScoringEngine.score_issue` (`scoring/engine.py` lines 174-207) with
the default weights: base score from the reason (unknown → 20), one
keyword bonus per matching group, ×1.5 on the critical path, × the age
bucket when a timestamp is present, clamped to [0, 100].  The wall-clock
instant the Python code reads inside `_get_age_multiplier` is the explicit
`now` argument here. -/
def scoreIssue (now : ℚ) (issue : Issue) : ℚ :=
  let base := lookupD baseScores issue.reason 20
  let messageLower := pyLower issue.message
  let withKeywords := keywordGroups.foldl
    (fun acc g =>
      if g.1.any (fun p => pySubstr p messageLower) then acc + g.2 else acc)
    base
  let withPath := if issue.critical_path then withKeywords * (3/2)
    else withKeywords
  let withAge := match issue.timestamp with
    | some ts => withPath * getAgeMultiplier now ts
    | none => withPath
  max 0 (min 100 withAge)

/-- The issue refuting claim C5: reason `BackOff` (base 30), no keyword
matches (empty message), not on the critical path, timestamped at hour
1000. -/
def c5Issue : Issue :=
  { resource_uid := "u1", title := "BackOff: web-1", description := "",
    severity := .info, score := 0, reason := "BackOff", message := "",
    timestamp := some 1000, critical_path := false }

end KubectlSmart

namespace KubectlSmart

/-- C5: the claim says two evaluations of the score function on identical
inputs (including the issue's timestamp) yield identical scores and that
no wall-clock time is consulted beyond that timestamp.  `score_issue`'s
own docstring calls it pure, but `_get_age_multiplier` reads
`datetime.now(timezone.utc)` (`scoring/engine.py` line 346): the same
issue scored half an hour after its timestamp gets 30, and scored 100
hours after it gets 15. -/
theorem c5_score_reads_wall_clock :
    scoreIssue (1000 + 1/2) c5Issue = 30 ∧
    scoreIssue 1100 c5Issue = 15 ∧ (30 : ℚ) ≠ 15 := by
  refine ⟨?_, ?_, by norm_num⟩ <;>
  · simp only [scoreIssue, c5Issue, lookupD, baseScores, keywordGroups,
      getAgeMultiplier, pyLower, pySubstr, subOccurs, List.foldl,
      List.any, String.data]
    simp +decide only [if_true, if_false]
    norm_num [List.isPrefixOf]

/-- Lexicographic comparison of character lists by code point — Python's
`<` on strings, implemented structurally so that it evaluates. -/
def charListLt : List Char → List Char → Bool
  | [], [] => false
  | [], _ :: _ => true
  | _ :: _, [] => false
  | a :: as, b :: bs =>
    if a < b then true else if b < a then false else charListLt as bs

/-- Python string comparison `a < b`. -/
def pyStrLt (a b : String) : Bool := charListLt a.data b.data

/-- Comparison of the sort keys `(i.severity.value, -i.score)` used by
`analyze_issues` (`scoring/engine.py` line 462): Python tuple `≤`, i.e.
severity-value strings ascending, then score descending.  The key of `a`
is at most the key of `b`. -/
def issueKeyLe (a b : Issue) : Prop :=
  pyStrLt (sevValue a.severity) (sevValue b.severity) = true ∨
    (sevValue a.severity = sevValue b.severity ∧ b.score ≤ a.score)

instance : DecidableRel issueKeyLe := fun a b => by
  unfold issueKeyLe; infer_instance

/-- Final sort of `ScoringEngine.analyze_issues` (`scoring/engine.py` line
462): `issues.sort(key=lambda i: (i.severity.value, -i.score))`.  Python's
`list.sort` is a stable ascending sort by key, which insertion sort with
the ≤-of-keys relation computes exactly: an earlier element is inserted
before the first later element whose key is not below its own, so
equal-key elements keep their input order. -/
def sortIssues (issues : List Issue) : List Issue :=
  List.insertionSort issueKeyLe issues

theorem charListLt_trans : ∀ {x y z : List Char},
    charListLt x y = true → charListLt y z = true →
    charListLt x z = true := by
  intro x
  induction x with
  | nil =>
    intro y z hxy hyz
    cases y with
    | nil => simp [charListLt] at hxy
    | cons b bs =>
      cases z with
      | nil => simp [charListLt] at hyz
      | cons c cs => simp [charListLt]
  | cons a as ih =>
    intro y z hxy hyz
    cases y with
    | nil => simp [charListLt] at hxy
    | cons b bs =>
      cases z with
      | nil => simp [charListLt] at hyz
      | cons c cs =>
        simp only [charListLt] at hxy hyz ⊢
        by_cases hab : a < b
        · by_cases hbc : b < c
          · simp [lt_trans hab hbc]
          · by_cases hcb : c < b
            · simp [hbc, hcb] at hyz
            · have hbceq : b = c := le_antisymm (not_lt.mp hcb)
                (not_lt.mp hbc)
              subst hbceq
              simp [hab]
        · by_cases hba : b < a
          · simp [hab, hba] at hxy
          · have habeq : a = b := le_antisymm (not_lt.mp hba)
              (not_lt.mp hab)
            subst habeq
            simp only [lt_irrefl, if_false] at hxy
            by_cases hac : a < c
            · simp [hac]
            · by_cases hca : c < a
              · simp [hac, hca] at hyz
              · have haceq : a = c := le_antisymm (not_lt.mp hca)
                  (not_lt.mp hac)
                subst haceq
                simp only [lt_irrefl, if_false] at hyz ⊢
                exact ih hxy hyz

theorem charListLt_conn : ∀ {x y : List Char},
    charListLt x y = false → charListLt y x = false → x = y := by
  intro x
  induction x with
  | nil =>
    intro y hxy _
    cases y with
    | nil => rfl
    | cons b bs => simp [charListLt] at hxy
  | cons a as ih =>
    intro y hxy hyx
    cases y with
    | nil => simp [charListLt] at hyx
    | cons b bs =>
      simp only [charListLt] at hxy hyx
      by_cases hab : a < b
      · simp [hab] at hxy
      · by_cases hba : b < a
        · simp [hba] at hyx
        · have habeq : a = b := le_antisymm (not_lt.mp hba)
            (not_lt.mp hab)
          subst habeq
          simp only [lt_irrefl, if_false] at hxy hyx
          rw [ih hxy hyx]

instance : IsTrans Issue issueKeyLe := ⟨by
  intro a b c hab hbc
  rcases hab with h1 | ⟨h1, hs1⟩ <;> rcases hbc with h2 | ⟨h2, hs2⟩
  · exact Or.inl (charListLt_trans h1 h2)
  · exact Or.inl (h2 ▸ h1)
  · exact Or.inl (h1 ▸ h2)
  · exact Or.inr ⟨h1.trans h2, le_trans hs2 hs1⟩⟩

instance : IsTotal Issue issueKeyLe := ⟨by
  intro a b
  by_cases hab : pyStrLt (sevValue a.severity) (sevValue b.severity) = true
  · exact Or.inl (Or.inl hab)
  · by_cases hba : pyStrLt (sevValue b.severity) (sevValue a.severity)
        = true
    · exact Or.inr (Or.inl hba)
    · have hdata : (sevValue a.severity).data = (sevValue b.severity).data :=
        charListLt_conn (Bool.not_eq_true _ ▸ hab)
          (Bool.not_eq_true _ ▸ hba)
      have heq : sevValue a.severity = sevValue b.severity := by
        cases ha : sevValue a.severity with
        | mk d1 =>
          cases hb : sevValue b.severity with
          | mk d2 =>
            rw [ha, hb] at hdata
            exact congrArg String.mk hdata
      rcases le_total b.score a.score with hs | hs
      · exact Or.inl (Or.inr ⟨heq, hs⟩)
      · exact Or.inr (Or.inr ⟨heq.symm, hs⟩)⟩

/-- Warning-severity issue used in the C2 counterexample. -/
def c2Warn : Issue :=
  { resource_uid := "a", title := "w", description := "",
    severity := .warning, score := 60, reason := "Unhealthy",
    message := "probe failed" }

/-- Info-severity issue used in the C2 counterexample. -/
def c2Info : Issue :=
  { resource_uid := "b", title := "i", description := "",
    severity := .info, score := 40, reason := "BackOff",
    message := "back-off restarting" }

/-- Equal-key warning issues (same severity and score) with resource uids
in anti-lexicographic input order, for the tiebreak part of C2. -/
def c2TieB : Issue :=
  { resource_uid := "b", title := "tb", description := "",
    severity := .warning, score := 60, reason := "Unhealthy",
    message := "m1" }

def c2TieA : Issue :=
  { resource_uid := "a", title := "ta", description := "",
    severity := .warning, score := 60, reason := "Unhealthy",
    message := "m2" }

end KubectlSmart

namespace KubectlSmart

/-- C2 counterexample: the claim says the scoring step orders by severity
rank descending (Critical before Warning before Info) with ties broken by
`(resourceUid, reason)` lexicographically.  The code sorts ascending by
the severity's *string value* (`"critical" < "info" < "warning"`), so an
Info issue is placed before a Warning issue; and ties keep input order
(stable sort) — two equal-key warnings with uids `"b"`, `"a"` stay in
that order instead of being swapped into lexicographic order. -/
theorem c2_sort_counterexample :
    sortIssues [c2Warn, c2Info] = [c2Info, c2Warn]
    ∧ [c2Info, c2Warn] ≠ [c2Warn, c2Info]
    ∧ sortIssues [c2TieB, c2TieA] = [c2TieB, c2TieA]
    ∧ c2TieB.resource_uid = "b" ∧ c2TieA.resource_uid = "a"
    ∧ [c2TieB, c2TieA] ≠ [c2TieA, c2TieB] := by
  refine ⟨by decide, by decide, by decide, rfl, rfl, by decide⟩

/-- C2 amended: the sequence returned by the scoring step's sort is
ordered by the key `(severity.value, -score)` ascending — the severity
strings compare `"critical" < "info" < "warning"`, so Critical issues come
first but Info precedes Warning — with score descending within equal
severity; remaining ties keep the input order (the sort is stable), and
no `(resourceUid, reason)` tiebreak is applied.  Proved: the output is
sorted under the key relation and is a permutation of the input. -/
theorem c2_sort_sorted_perm (l : List Issue) :
    List.Sorted issueKeyLe (sortIssues l) ∧ (sortIssues l).Perm l :=
  ⟨List.sorted_insertionSort issueKeyLe l,
   List.perm_insertionSort issueKeyLe l⟩

end KubectlSmart

namespace KubectlSmart

/-- Dependency graph as `analyze_issues` consumes it
(`GraphBuilder.get_dependencies`, `graph/builder.py` lines 283-305):
neighbour uids per direction. -/
structure DepGraph where
  upstream : String → List String
  downstream : String → List String

def emptyDepGraph : DepGraph := ⟨fun _ => [], fun _ => []⟩

/-- The dict comprehension `{r.uid: r for r in resources}`
(`scoring/engine.py` line 383): on duplicate uids the last record wins. -/
def resourceMapFind (rs : List ResourceRecord) (u : String) :
    Option ResourceRecord :=
  rs.foldl (fun acc r => if r.uid = u then some r else acc) none

/-- String-valued property read used on event records (`reason`,
`message`, `type`): the records the repo's `EventParser` builds always
store strings here, so the embedding reads a string and falls back to the
default otherwise. -/
def getStrProp (r : ResourceRecord) (k d : String) : String :=
  match objLookup r.properties k with
  | some (.str s) => s
  | some _ => d
  | none => d

/-- `ScoringEngine.score_resource_status` (`scoring/engine.py` lines
209-215): 0 for a falsy status, else the `status_<X>` base score
(default 0). -/
def scoreResourceStatus (r : ResourceRecord) : ℚ :=
  match r.status with
  | none => 0
  | some s => if s = "" then 0 else lookupD baseScores ("status_" ++ s) 0

/-- `ScoringEngine.create_issue_from_event` (`scoring/engine.py` lines
217-269): build the base issue from the event's `reason`/`message`/`type`
and the target's uid, score it with `score_issue` (hence the explicit
`now`), multiply by the target kind's `resource_type` multiplier and the
event's `event_type` multiplier, clamp to [0, 100] and derive the
severity from the 90/50 thresholds. -/
def createIssueFromEvent (now : ℚ) (eventR targetR : ResourceRecord)
    (isCrit : Bool) : Issue :=
  let reason := getStrProp eventR "reason" "Unknown"
  let message := getStrProp eventR "message" ""
  let eventType := getStrProp eventR "type" "Normal"
  let issue : Issue :=
    { resource_uid := targetR.uid, title := reason ++ ": " ++ targetR.name,
      description := message, reason := reason, message := message,
      timestamp := eventR.creation_timestamp, critical_path := isCrit,
      severity := .info, score := 0 }
  let base := scoreIssue now issue
  let base := base * lookupD resourceTypeMultipliers
    (kindValue targetR.kind) 1
  let base := base * lookupD eventTypeMultipliers eventType 1
  let finalScore := max 0 (min 100 base)
  { issue with
    score := finalScore,
    severity := if finalScore ≥ 90 then .critical
      else if finalScore ≥ 50 then .warning else .info }

/-- `ScoringEngine.create_issue_from_resource_status` (`scoring/engine.py`
lines 271-303): only statuses whose base score reaches 30 yield an issue;
severity from the same thresholds. -/
def createIssueFromResourceStatus (r : ResourceRecord) (isCrit : Bool) :
    Option Issue :=
  let statusScore := scoreResourceStatus r
  if statusScore < 30 then none
  else
    let st := match r.status with
      | some s => s
      | none => ""
    some
      { resource_uid := r.uid, title := "Resource Status: " ++ st,
        description := kindValue r.kind ++ " " ++ r.name ++ " is in "
          ++ st ++ " state",
        reason := "Status" ++ st,
        message := "Resource is in unhealthy state: " ++ st,
        timestamp := r.creation_timestamp, critical_path := isCrit,
        severity := if statusScore ≥ 90 then .critical
          else if statusScore ≥ 50 then .warning else .info,
        score := statusScore }

/-- The `LogAnalysis` pass of `analyze_issues` (`scoring/engine.py` lines
391-396): every iteration evaluates `ResourceKind.LOGANALYSIS`, a member
`models.py` does not define, so the first iteration raises
`AttributeError`; were the member defined, no `ResourceRecord` of that
kind can exist in the embedded model anyway, so the filter matches
nothing. -/
def logAnalysisLoop (resources : List ResourceRecord) :
    Except PyErr (List Issue) :=
  resources.foldlM
    (fun acc _ =>
      match logAnalysisMember with
      | none => .error .attributeError
      | some _ => .ok acc)
    []

/-- Namespace part of the event-target fallback match
(`scoring/engine.py` lines 410, 421): `involvedObject.get('namespace',
event.namespace)` compared against the candidate's namespace. -/
def nsMatches (r : ResourceRecord) (event : ResourceRecord)
    (iokvs : List (String × JValue)) : Bool :=
  match objLookup iokvs "namespace" with
  | some (.str s) => r.namespc = some s
  | some .null => r.namespc = none
  | some _ => false
  | none => r.namespc = event.namespc

/-- Event-target resolution of `analyze_issues` (`scoring/engine.py` lines
406-423): by `involvedObject.uid` through the resource map when that is a
truthy key, else the first resource matching `(name, kind, namespace)`. -/
def findTarget (resources : List ResourceRecord)
    (event : ResourceRecord) (iokvs : List (String × JValue)) :
    Option ResourceRecord :=
  let byUid :=
    match objLookup iokvs "uid" with
    | some (.str u) => if u = "" then none else resourceMapFind resources u
    | _ => none
  match byUid with
  | some t => some t
  | none =>
    resources.find? (fun r =>
      (match objLookup iokvs "name" with
       | some (.str n) => r.name = n
       | _ => false) &&
      (match objLookup iokvs "kind" with
       | some (.str k) => kindValue r.kind = k
       | _ => false) &&
      nsMatches r event iokvs)

/-- Critical-path test for an event target (`scoring/engine.py` lines
431-439): some upstream neighbour resolves to a record whose status is
`Failed`, `NotReady` or `Unavailable`. -/
def critPathEvent (g : Option DepGraph)
    (resources : List ResourceRecord) (t : ResourceRecord) : Bool :=
  match g with
  | none => false
  | some g =>
    (g.upstream t.uid).any (fun du =>
      match resourceMapFind resources du with
      | some dep =>
        dep.status = some "Failed" || dep.status = some "NotReady" ||
        dep.status = some "Unavailable"
      | none => false)

/-- Critical-path test for a status issue (`scoring/engine.py` lines
450-455): more than two downstream neighbours. -/
def critPathStatus (g : Option DepGraph) (r : ResourceRecord) : Bool :=
  match g with
  | none => false
  | some g => (g.downstream r.uid).length > 2

/-- Event pass of `analyze_issues` (`scoring/engine.py` lines 398-443):
skip non-events, resolve the target (orphans dropped), flag the critical
path, build the scored issue.  A non-dict `involvedObject` raises on its
`.get` (uncaught, embedded as an error). -/
def eventsLoop (now : ℚ) (resources events : List ResourceRecord)
    (g : Option DepGraph) : Except PyErr (List Issue) :=
  events.foldlM
    (fun acc event =>
      if event.kind ≠ .event then .ok acc
      else
        match objGetD event.properties "involvedObject" (.obj []) with
        | .obj iokvs =>
          match findTarget resources event iokvs with
          | none => .ok acc
          | some t =>
            .ok (acc ++ [createIssueFromEvent now event t
              (critPathEvent g resources t)])
        | _ => .error .attributeError)
    []

/-- `ScoringEngine.analyze_issues` (`scoring/engine.py` lines 366-464):
the `LogAnalysis` pass (which raises on any non-empty resource list, see
`logAnalysisLoop`), the event pass, the resource-status pass, and the
final sort. -/
def analyzeIssues (now : ℚ) (resources events : List ResourceRecord)
    (g : Option DepGraph) : Except PyErr (List Issue) :=
  match logAnalysisLoop resources with
  | .error e => .error e
  | .ok logIssues =>
    match eventsLoop now resources events g with
    | .error e => .error e
    | .ok eventIssues =>
      let statusIssues := resources.filterMap (fun r =>
        if r.kind = .event then none
        else createIssueFromResourceStatus r (critPathStatus g r))
      .ok (sortIssues (logIssues ++ eventIssues ++ statusIssues))

/-- Exit-code-relevant behaviour of `DiagCommand.execute` (`cli/commands.py`
lines 110-209): locate the target by `(kind, name, namespace)` (not found
→ 2), extract the `Event` records, run `analyze_issues` (its exception is
caught by the `except BaseException` at line 199 → 2), filter the issues
to the target's uid, and return 2 iff any critical or warning issue
remains, else 0.  Root cause, contributing factors, suggested actions and
rendering do not influence the exit code and are omitted. -/
def diagExitCode (now : ℚ) (subjectKind : ResourceKind)
    (subjectName : String) (subjectNs : Option String)
    (allResources : List ResourceRecord) (g : Option DepGraph) : Nat :=
  match allResources.find? (fun r =>
      r.kind = subjectKind && r.name = subjectName &&
      r.namespc = subjectNs) with
  | none => 2
  | some target =>
    let events := allResources.filter (fun r => kindValue r.kind = "Event")
    match analyzeIssues now allResources events g with
    | .error _ => 2
    | .ok issues =>
      let targetIssues := issues.filter
        (fun i => i.resource_uid = target.uid)
      if targetIssues.any (fun i => i.severity = .critical) ||
          targetIssues.any (fun i => i.severity = .warning) then 2
      else 0

/-- A healthy Pod record: the target of the C1 failing input. -/
def healthyPod : ResourceRecord :=
  { kind := .pod, name := "web-1", uid := "pod-uid-1",
    namespc := some "default", status := some "Running",
    properties :=
      [("spec", .obj []), ("status", .obj [("phase", .str "Running")]),
       ("metadata", .obj [("name", .str "web-1"),
                          ("uid", .str "pod-uid-1"),
                          ("namespace", .str "default")])] }

end KubectlSmart

namespace KubectlSmart

/-- C1: the claim says a found target with no critical/warning issues —
in particular a healthy cluster — yields exit 0.  With the target found
and the resource list non-empty, `analyze_issues` always raises
`AttributeError` at `ResourceKind.LOGANALYSIS` (`scoring/engine.py` line
393; the member does not exist in `models.py`), the `except BaseException`
in `DiagCommand.execute` maps it to exit 2 — so a healthy cluster with a
single Running pod, no events and no log matches exits 2, not 0. -/
theorem c1_diag_healthy_exits_two :
    diagExitCode 0 .pod "web-1" (some "default") [healthyPod]
      (some emptyDepGraph) = 2
    ∧ analyzeIssues 0 [healthyPod] [] (some emptyDepGraph)
      = .error .attributeError
    ∧ healthyPod.status = some "Running" := by
  exact ⟨rfl, rfl, rfl⟩

end KubectlSmart

namespace KubectlSmart

/-- Digit run to a natural number (`digitsToNat "150" = 150`). -/
def digitsToNat (l : List Char) : ℕ :=
  l.foldl (fun acc c => acc * 10 + (c.toNat - 48)) 0

/-- The number part of the storage-size regex
`^(\d+(?:\.\d+)?)\s*([a-zA-Z]*)$` (`predictor.py` line 466): digits with
an optional fraction, returning the value and the rest of the input. -/
def parseRegexNumber (l : List Char) : Option (ℚ × List Char) :=
  let d1 := l.takeWhile Char.isDigit
  let rest := l.dropWhile Char.isDigit
  if d1.isEmpty then none
  else
    match rest with
    | '.' :: r2 =>
      let d2 := r2.takeWhile Char.isDigit
      let rest2 := r2.dropWhile Char.isDigit
      if d2.isEmpty then none
      else some ((digitsToNat d1 : ℚ) +
        (digitsToNat d2 : ℚ) / ((10 : ℚ) ^ d2.length), rest2)
    | _ => some ((digitsToNat d1 : ℚ), rest)

/-- Suffix multipliers of `_parse_storage_size` (`predictor.py` lines
457-463), keyed by the lowercased unit. -/
def storageMultipliers : List (String × ℚ) :=
  [("k", 1024), ("ki", 1024),
   ("m", 1024 ^ 2), ("mi", 1024 ^ 2),
   ("g", 1024 ^ 3), ("gi", 1024 ^ 3),
   ("t", 1024 ^ 4), ("ti", 1024 ^ 4),
   ("p", 1024 ^ 5), ("pi", 1024 ^ 5)]

/-- `ForecastingEngine._parse_storage_size` (`predictor.py` lines
448-474): strip, lowercase, match number + optional whitespace + letters,
look the unit up (default multiplier 1), truncate `number * multiplier`
to an integer.  Unparseable values degrade to 0. -/
def parseStorageSize (s : String) : ℤ :=
  if s = "" then 0
  else
    let t := (pyLower (pyStrip s)).data
    match parseRegexNumber t with
    | none => 0
    | some (number, rest) =>
      let afterWs := rest.dropWhile (fun c => isPyWs c)
      let unit := afterWs.takeWhile Char.isAlpha
      let trailing := afterWs.dropWhile Char.isAlpha
      if ¬ trailing.isEmpty then 0
      else
        let mult := lookupD storageMultipliers ⟨unit⟩ 1
        ⌊number * mult⌋

/-- Python `float(string)` for the decimal forms the metrics use: optional
sign, digits with optional fraction, optional exponent; `none` embeds the
`ValueError` on anything else. -/
def pyFloat (s : String) : Option ℚ :=
  let t := (pyStrip s).data
  let (sign, t) : ℚ × List Char :=
    match t with
    | '-' :: r => (-1, r)
    | '+' :: r => (1, r)
    | _ => (1, t)
  match parseRegexNumber t with
  | none => none
  | some (mant, rest) =>
    match rest with
    | [] => some (sign * mant)
    | e :: r2 =>
      if e = 'e' ∨ e = 'E' then
        let (esign, r3) : ℤ × List Char :=
          match r2 with
          | '-' :: r => (-1, r)
          | '+' :: r => (1, r)
          | _ => (1, r2)
        let ed := r3.takeWhile Char.isDigit
        if ed.isEmpty ∨ ¬ (r3.dropWhile Char.isDigit).isEmpty then none
        else some (sign * mant * (10 : ℚ) ^ (esign * (digitsToNat ed : ℤ)))
      else none

/-- `ForecastingEngine._parse_metric_value` (`predictor.py` lines 476-498)
on a non-empty string: millicores for `cpu` values ending in `m`, storage
parsing for `memory`, plain float otherwise (falling back to 0 on
`ValueError` only in the default branch — the `cpu` branch lets the
`ValueError` escape, embedded as `none`). -/
def parseMetricValueStr (s metricName : String) : Option ℚ :=
  let t := pyStrip s
  if metricName = "cpu" then
    match t.data.getLast? with
    | some 'm' => (pyFloat ⟨t.data.dropLast⟩).map (· / 1000)
    | _ => pyFloat t
  else if metricName = "memory" then some ((parseStorageSize t : ℤ) : ℚ)
  else
    match pyFloat t with
    | some q => some q
    | none => some 0

/-- Value extraction for one metric record entry: `_parse_metric_value`
applied to `metric_data.get(metric_name, '0')`.  A falsy value returns 0
before any string operation; a truthy non-string raises `AttributeError`
at `.strip()` (embedded as `none`, caught by the callers' `try`). -/
def getMetricValue (v : JValue) (metricName : String) : Option ℚ :=
  if ¬ jTruthy v then some 0
  else
    match v with
    | .str s => parseMetricValueStr s metricName
    | _ => none

/-- One value of the series for `_linear_forecast`/`_forecast_time_series`
(`predictor.py` lines 420-424): `m.get_property('metrics', {})` then the
metric entry with default `'0'`; a non-dict `metrics` property raises at
`.get` (embedded as `none`). -/
def metricEntry (m : ResourceRecord) (metricName : String) : Option ℚ :=
  match m.get_property "metrics" (.obj []) with
  | .obj kvs => getMetricValue (objGetD kvs metricName (.str "0")) metricName
  | _ => none

/-- `ForecastingEngine._linear_forecast` (`predictor.py` lines 409-446):
trend over the last three samples, projected `horizon // 24` periods
forward, clamped *below only* (`max(0, predicted)` at line 438 — there is
no upper clamp).  `none` embeds both the too-few-samples path and the
caught exception path. -/
def linearForecast (metrics : List ResourceRecord) (metricName : String)
    (horizonHours : ℤ) : Option (ℚ × ℚ) :=
  if metrics.length < 2 then none
  else
    match metrics.mapM (fun m => metricEntry m metricName) with
    | none => none
    | some values =>
      let recent := if values.length ≥ 3 then
          values.drop (values.length - 3)
        else values
      let trend := (recent.getLastD 0 - recent.headD 0) / (recent.length : ℚ)
      let forecastPeriods := Int.fdiv horizonHours 24
      let predicted := values.getLastD 0 + trend * (forecastPeriods : ℚ)
      some (values.getLastD 0, max 0 predicted)

/-- `ForecastingEngine._forecast_time_series` (`predictor.py` lines
356-407) with the external statsmodels Holt-Winters fit abstracted into
the oracle `hw : List ℚ → Option ℚ` (`none` = any exception in the fit,
falling back to the linear forecast); `smAvail` embeds
`STATSMODELS_AVAILABLE`.  Returns `(current, predicted)`. -/
def forecastTimeSeries (smAvail : Bool) (hw : List ℚ → Option ℚ)
    (minSamples : ℕ) (horizonHours : ℤ) (metrics : List ResourceRecord)
    (metricName : String) : Option (ℚ × ℚ) :=
  if ¬ smAvail ∨ metrics.length < minSamples then
    linearForecast metrics metricName horizonHours
  else
    match metrics.mapM (fun m => metricEntry m metricName) with
    | none => linearForecast metrics metricName horizonHours
    | some values =>
      if values.length < minSamples then
        linearForecast metrics metricName horizonHours
      else
        match hw values with
        | some predicted => some (values.getLastD 0, predicted)
        | none => linearForecast metrics metricName horizonHours

/-- One capacity prediction dict (`predictor.py` lines 116-125, 135-144,
186-214): only the fields the claims and the ≥90 filter read are kept;
the message/suggested-action strings are functions of these. -/
structure Prediction where
  ptype : String
  resource : String
  predicted_utilization : ℚ
  forecast_hours : ℤ
  current_utilization : Option ℚ := none
deriving DecidableEq, Repr

/-- `ForecastingEngine._predict_node_capacity` (`predictor.py` lines
98-146): immediate 95-utilization predictions for True
Disk/Memory/PID-pressure conditions, then (when metrics and statsmodels
are available and enough samples exist) a `node_capacity` prediction if
the forecast value reaches 90.  A malformed status subtree raises
(uncaught — embedded as `Except.error`). -/
def predictNodeCapacity (smAvail : Bool) (hw : List ℚ → Option ℚ)
    (minSamples : ℕ) (horizonHours : ℤ) (node : ResourceRecord)
    (metricsData : List ResourceRecord) :
    Except PyErr (List Prediction) := do
  let status := node.get_property "status" (.obj [])
  let conds ←
    match status with
    | .obj skvs =>
      match pyIterList (objGetD skvs "conditions" (.arr [])) with
      | some cs => Except.ok cs
      | none => Except.error .typeError
    | _ => Except.error .attributeError
  let pressure ← conds.foldlM
    (fun (acc : List Prediction) c =>
      match c with
      | .obj ckvs =>
        let condType := objGetD ckvs "type" (.str "")
        let condStat := objGetD ckvs "status" (.str "Unknown")
        if jIsStr condStat "True" &&
            (jIsStr condType "DiskPressure" ||
             jIsStr condType "MemoryPressure" ||
             jIsStr condType "PIDPressure") then
          Except.ok (acc ++ [{
            ptype := "node_pressure",
            resource := node.full_name,
            predicted_utilization := 95,
            forecast_hours := 0 }])
        else Except.ok acc
      | _ => Except.error .attributeError)
    []
  let capacity :=
    if ¬ metricsData.isEmpty ∧ smAvail then
      let nodeMetrics := metricsData.filter (fun m => m.name = node.name)
      if nodeMetrics.length ≥ minSamples then
        match forecastTimeSeries smAvail hw minSamples horizonHours
            nodeMetrics "cpu" with
        | some (cur, pred) =>
          if pred ≥ 90 then
            [{
              ptype := "node_capacity",
              resource := node.full_name,
              predicted_utilization := pred,
              forecast_hours := horizonHours,
              current_utilization := some cur }]
          else []
        | none => []
      else []
    else []
  return pressure ++ capacity

/-- Python `float(x)` on an embedded JSON value: numbers and booleans
convert, strings parse (`ValueError` on failure), everything else raises
`TypeError`. -/
def pyFloatJ (v : JValue) : Except PyErr ℚ :=
  match v with
  | .num q => .ok q
  | .bool b => .ok (if b then 1 else 0)
  | .str s =>
    match pyFloat s with
    | some q => .ok q
    | none => .error .valueError
  | _ => .error .typeError

/-- `ForecastingEngine._forecast_from_history` (`predictor.py` lines
269-285): slope per hour between the first and last of the final three
samples, projected across the horizon and clamped to [0, 100]; `none` for
fewer than two samples.  Sample times are rational hours, so
`(t1 - t0).total_seconds() / 3600` is just the difference, floored at
0.0001 as in the source. -/
def forecastFromHistory (series : List (ℚ × ℚ)) (currentUtil : ℚ)
    (horizonHours : ℤ) : Option ℚ :=
  if series.length < 2 then none
  else
    let pts := series.drop (series.length - 3)
    let p0 := pts.headD (0, 0)
    let p1 := pts.getLastD (0, 0)
    let hours := max (1 / 10000 : ℚ) (p1.1 - p0.1)
    let slope := (p1.2 - p0.2) / hours
    some (max 0 (min 100 (currentUtil + slope * (horizonHours : ℚ))))

/-- `ForecastingEngine._predict_pvc_usage` (`predictor.py` lines 148-216).
`histProvider` stands for `_load_pvc_utilization_series` (namespace, pvc
name → cached samples); the sample append (lines 179-183) is a filesystem
effect inside its own swallowing `try` and does not influence the returned
predictions.  The dead local `used_storage` (line 171) raises on a
non-dict `status`/`capacity` subtree, so those reads are kept. -/
def predictPvcUsage (histProvider : String → String → List (ℚ × ℚ))
    (horizonHours : ℤ) (pvc : ResourceRecord) :
    Except PyErr (List Prediction) := do
  let spec := pvc.get_property "spec" (.obj [])
  let resources ← jGetD spec "resources" (.obj [])
  let requests ← jGetD resources "requests" (.obj [])
  let storage ← jGetD requests "storage" (.str "0Gi")
  let storageBytes ←
    if ¬ jTruthy storage then Except.ok (0 : ℤ)
    else
      match storage with
      | .str s => Except.ok (parseStorageSize s)
      | _ => Except.error .attributeError
  if storageBytes = 0 then
    return []
  let status := pvc.get_property "status" (.obj [])
  let capacity ← jGetD status "capacity" (.obj [])
  let _usedStorage ← jGetD capacity "storage" storage
  let metrics := pvc.get_property "metrics" (.obj [])
  let usedJ ← jGetD metrics "pvc_used_bytes" (.num 0)
  let usedBytes ← pyFloatJ usedJ
  let capJ ← jGetD metrics "pvc_capacity_bytes" (.num 0)
  let capBytes ← pyFloatJ capJ
  if usedBytes > 0 ∧ capBytes > 0 then
    let utilization := usedBytes / capBytes * 100
    if utilization ≥ 90 then
      return [{
        ptype := "pvc_usage",
        resource := pvc.full_name,
        predicted_utilization := utilization,
        forecast_hours := 0,
        current_utilization := some utilization }]
    else
      let ns := match pvc.namespc with
        | some n => n
        | none => "default"
      let history := histProvider ns pvc.name
      let predicted :=
        match forecastFromHistory history utilization horizonHours with
        | some f => f
        | none => utilization
      return [{
        ptype := "pvc_usage",
        resource := pvc.full_name,
        predicted_utilization := predicted,
        forecast_hours := horizonHours,
        current_utilization := some utilization }]
  else
    return []

/-- `ForecastingEngine.predict_capacity_issues` (`predictor.py` lines
40-71): node predictions, PVC predictions, then the filter keeping only
predictions with `predicted_utilization >= 90`. -/
def predictCapacityIssues (smAvail : Bool) (hw : List ℚ → Option ℚ)
    (minSamples : ℕ) (horizonHours : ℤ)
    (histProvider : String → String → List (ℚ × ℚ))
    (resources metricsData : List ResourceRecord) :
    Except PyErr (List Prediction) :=
  let nodes := resources.filter (fun r => kindValue r.kind = "Node")
  match nodes.foldlM
      (fun acc n =>
        (predictNodeCapacity smAvail hw minSamples horizonHours n
          metricsData).map (acc ++ ·))
      [] with
  | .error e => .error e
  | .ok nodePreds =>
    let pvcs := resources.filter
      (fun r => kindValue r.kind = "PersistentVolumeClaim")
    match pvcs.foldlM
        (fun acc p =>
          (predictPvcUsage histProvider horizonHours p).map (acc ++ ·))
        nodePreds with
    | .error e => .error e
    | .ok allPreds =>
      .ok (allPreds.filter (fun p => 90 ≤ p.predicted_utilization))

/-- The PVC record of the C4 counterexample: a bound claim requesting one
byte of storage whose kubelet metrics report 150 used bytes against a
100-byte capacity — current utilization 150%. -/
def c4Pvc : ResourceRecord :=
  { kind := .pvc, name := "data", uid := "pvc-uid-1",
    namespc := some "prod", status := some "Bound",
    properties :=
      [("spec", .obj [("resources", .obj [("requests",
          .obj [("storage", .str "1")])])]),
       ("status", .obj []),
       ("metrics", .obj [("pvc_used_bytes", .num 150),
                         ("pvc_capacity_bytes", .num 100)])] }

/-- The prediction the forecaster emits for `c4Pvc`. -/
def c4Pred : Prediction :=
  { ptype := "pvc_usage", resource := "PersistentVolumeClaim/prod/data",
    predicted_utilization := 150, forecast_hours := 0,
    current_utilization := some 150 }

theorem c4_eval :
    predictCapacityIssues false (fun _ => none) 7 48 (fun _ _ => [])
      [c4Pvc] [] = .ok [c4Pred] := by
  have h1 : parseStorageSize "1" = 1 := by
    have h : parseStorageSize "1" = ⌊((1 : ℕ) : ℚ) * 1⌋ := rfl
    rw [h]; norm_num
  have h2 : (150 : ℚ) / 100 * 100 = 150 := by norm_num
  simp +decide [predictCapacityIssues, predictPvcUsage, c4Pvc, c4Pred,
    ResourceRecord.get_property, getPropLoop, getPropStep, pySplitDot,
    splitChar, objLookup, objGetD, jGetD, jTruthy, pyFloatJ, kindValue,
    ResourceRecord.full_name, List.filter, List.foldlM, bind, Except.bind,
    pure, Except.pure, Except.map, h1, h2]

end KubectlSmart

namespace KubectlSmart

/-- C4 counterexample: the claim says every emitted capacity prediction
has `predicted_utilization` in [0, 100].  The PVC current-utilization path
(`predictor.py` line 178) emits `used/capacity*100` unclamped: with 150
used bytes against 100 capacity bytes the forecaster emits a prediction
with `predicted_utilization = 150 > 100` (the `_linear_forecast` node path
likewise clamps below only, line 438). -/
theorem c4_counterexample :
    predictCapacityIssues false (fun _ => none) 7 48 (fun _ _ => [])
      [c4Pvc] [] = .ok [c4Pred]
    ∧ c4Pred.predicted_utilization = 150
    ∧ ¬ (c4Pred.predicted_utilization ≤ 100) :=
  ⟨c4_eval, rfl, by norm_num [c4Pred]⟩

/-- C4 amended: every capacity prediction the forecaster emits has
`predicted_utilization ≥ 90` (the actionability filter), and in
particular never below 0 — but it may exceed 100: the PVC
current-utilization value and the linear node forecast are not clamped
above. -/
theorem c4_only_actionable (smAvail : Bool) (hw : List ℚ → Option ℚ)
    (minSamples : ℕ) (horizonHours : ℤ)
    (histProvider : String → String → List (ℚ × ℚ))
    (resources metricsData : List ResourceRecord)
    (ps : List Prediction)
    (h : predictCapacityIssues smAvail hw minSamples horizonHours
      histProvider resources metricsData = .ok ps) :
    ∀ p ∈ ps, (90 : ℚ) ≤ p.predicted_utilization ∧
      (0 : ℚ) ≤ p.predicted_utilization := by
  simp only [predictCapacityIssues] at h
  split at h
  · exact absurd h (by simp)
  · split at h
    · exact absurd h (by simp)
    · rw [Except.ok.injEq] at h
      subst h
      intro p hp
      have hmem := List.mem_filter.mp hp
      have h90 : (90 : ℚ) ≤ p.predicted_utilization :=
        of_decide_eq_true hmem.2
      exact ⟨h90, le_trans (by norm_num) h90⟩

/-- Witness for `c4_only_actionable` at the concrete C4 input: the single
emitted prediction satisfies the ≥90 (hence ≥0) bound. -/
theorem c4_only_actionable_witness :
    (90 : ℚ) ≤ c4Pred.predicted_utilization ∧
      (0 : ℚ) ≤ c4Pred.predicted_utilization :=
  c4_only_actionable false (fun _ => none) 7 48 (fun _ _ => [])
    [c4Pvc] [] [c4Pred] c4_eval c4Pred (by simp)

end KubectlSmart

namespace KubectlSmart

/-- `GraphBuilder._get_status_icon` (`graph/builder.py` lines 376-391):
dict lookup keyed by the vertex's status with a white default. -/
def statusIcon (status : Option String) : String :=
  match status with
  | some "Running" => "🟢"
  | some "Active" => "🟢"
  | some "Ready" => "🟢"
  | some "Available" => "🟢"
  | some "Bound" => "🟢"
  | some "Complete" => "🟢"
  | some "Failed" => "🔴"
  | some "Pending" => "🟡"
  | some "Unknown" => "🔴"
  | some "NotReady" => "🔴"
  | some "Unavailable" => "🔴"
  | _ => "⚪"

/-- `GraphBuilder._build_ascii_tree` (`graph/builder.py` lines 335-374):
`fuel` is `max_depth - current_depth`, so `fuel = 0` is the
`current_depth >= max_depth` cutoff.  A revisited vertex appends the cycle
marker line; a vertex reached at the cutoff returns *silently* — there is
no cutoff marker in the source.  Each child in the neighbour list is
skipped when it has no record (its index still counts for the `is_last`
connector), otherwise printed with its status icon and recursed into with
one less fuel and a per-path copy of the visited set (`visited.copy()`,
line 373). -/
def buildAsciiTree (deps : String → List String)
    (res : String → Option ResourceRecord) :
    ℕ → String → String → List String → List String
  | 0, uid, pfx, visited =>
    if uid ∈ visited then [pfx ++ "└─ 🔄 (cycle detected)"] else []
  | fuel + 1, uid, pfx, visited =>
    if uid ∈ visited then [pfx ++ "└─ 🔄 (cycle detected)"]
    else
      let ds := deps uid
      (ds.enum.map (fun p =>
        match res p.2 with
        | none => []
        | some depR =>
          let isLast := p.1 = ds.length - 1
          let connector := if isLast then "└─ " else "├─ "
          let newPfx := pfx ++ (if isLast then "    " else "│   ")
          (pfx ++ connector ++ statusIcon depR.status ++ " "
            ++ depR.full_name)
            :: buildAsciiTree deps res fuel p.2 newPfx
              (uid :: visited))).flatten

/-- `GraphBuilder.to_ascii` (`graph/builder.py` lines 307-333) as the list
of output lines (`'\n'.join(lines)` in the source): the root's full name
followed by the tree walk.  The >2000-vertex/>5000-edge size refusal
(lines 326-330) concerns rendering limits, not the traversal, and is
outside the embedded graphs. -/
def toAscii (deps : String → List String)
    (res : String → Option ResourceRecord) (rootUid : String)
    (maxDepth : ℕ) : List String :=
  match res rootUid with
  | none => ["Resource " ++ rootUid ++ " not found"]
  | some r => r.full_name :: buildAsciiTree deps res maxDepth rootUid "" []

/-- A Running pod vertex for the C7 chain. -/
def mkChainPod (n : String) : ResourceRecord :=
  { kind := .pod, name := n, uid := n, status := some "Running" }

/-- Record map of the five-vertex chain `a → b → c → d → e`. -/
def chainRes (u : String) : Option ResourceRecord :=
  if u = "a" ∨ u = "b" ∨ u = "c" ∨ u = "d" ∨ u = "e" then
    some (mkChainPod u)
  else none

/-- Downstream neighbours of the chain `a → b → c → d → e`. -/
def chainDeps (u : String) : List String :=
  if u = "a" then ["b"]
  else if u = "b" then ["c"]
  else if u = "c" then ["d"]
  else if u = "d" then ["e"]
  else []

end KubectlSmart

namespace KubectlSmart

/-- C7 counterexample: the claim says every vertex reachable at the depth
cutoff is annotated with an explicit cycle-or-cutoff marker rather than
omitted silently.  Rendering the chain `a → b → c → d → e` with the
default `maxDepth = 3` prints down to `d` and then drops `e` with no
marker of any kind: the output contains neither a line for `Pod/e` nor
any `🔄` marker, although `e` is a recorded vertex reachable just past
the cutoff. -/
theorem c7_cutoff_is_silent :
    toAscii chainDeps chainRes "a" 3 =
      ["Pod/a", "└─ 🟢 Pod/b", "    └─ 🟢 Pod/c", "        └─ 🟢 Pod/d"]
    ∧ chainDeps "d" = ["e"]
    ∧ chainRes "e" = some (mkChainPod "e")
    ∧ (toAscii chainDeps chainRes "a" 3).all
        (fun l => !(pySubstr "Pod/e" l || pySubstr "🔄" l)) = true := by
  refine ⟨by decide, by decide, rfl, by decide⟩

/-- C7 amended: traversal always terminates (the embedded function is
total); every vertex revisited along the current path is annotated with
the cycle marker line; but a vertex reached at the depth cutoff that is
not a revisit is omitted silently — the recursion returns no line and no
marker for it. -/
theorem c7_cycle_marked_cutoff_silent (deps : String → List String)
    (res : String → Option ResourceRecord) (fuel : ℕ)
    (uid pfx : String) (visited : List String) :
    (uid ∈ visited →
      buildAsciiTree deps res fuel uid pfx visited =
        [pfx ++ "└─ 🔄 (cycle detected)"])
    ∧ (fuel = 0 → uid ∉ visited →
      buildAsciiTree deps res fuel uid pfx visited = []) := by
  constructor
  · intro hv
    cases fuel <;> simp [buildAsciiTree, hv]
  · intro h0 hv
    subst h0
    simp [buildAsciiTree, hv]

/-- Witness for `c7_cycle_marked_cutoff_silent`: a revisited vertex at
positive fuel produces exactly the marker line, and an unvisited vertex
at the cutoff produces nothing. -/
theorem c7_cycle_marked_cutoff_silent_witness :
    buildAsciiTree (fun _ => []) (fun _ => none) 2 "a" "p" ["a"]
      = ["p└─ 🔄 (cycle detected)"]
    ∧ buildAsciiTree (fun _ => []) (fun _ => none) 0 "b" "q" ["a"]
      = [] :=
  ⟨(c7_cycle_marked_cutoff_silent (fun _ => []) (fun _ => none) 2 "a" "p"
      ["a"]).1 (by decide),
   (c7_cycle_marked_cutoff_silent (fun _ => []) (fun _ => none) 0 "b" "q"
      ["a"]).2 rfl (by decide)⟩

end KubectlSmart
